import Mathlib

/-!
Verification of the bill-extraction core of the bills-aggregator repository.

The definitions below are a shallow embedding of the Python source:
`backend/services/ocr_service.py` (OCR text parsing, categorization, the
demonstration fallback) and the wide-schema CSV branch of
`backend/app.py::upload_csv`.  Python `re` patterns are embedded through a
small backtracking regex engine (`RE` / `mrun`) whose alternation and
greedy/lazy ordering follow Python's leftmost, backtracking-preference
semantics.  Numbers that the source handles as Python floats are modelled as
rationals (the claims under check only involve exact decimal values and
sums/products that are exact in either arithmetic).  The current processing
date (`datetime.now().date()` in the source) is passed explicitly as a
`today` argument.
-/

namespace BillsAgg

/-- The characters Python's `str.strip()` removes (ASCII whitespace). -/
def isSpaceChar (c : Char) : Bool :=
  c = ' ' || c = '\t' || c = '\n' || c = '\r' || c = '\x0b' || c = '\x0c'

/-- `\w` in Python `re` (restricted to ASCII inputs): letters, digits, underscore. -/
def isWordChar (c : Char) : Bool :=
  c.isAlpha || c.isDigit || c = '_'

/-- Trim ASCII whitespace from both ends of a character list (Python `str.strip()`). -/
def trimChars (l : List Char) : List Char :=
  ((l.dropWhile isSpaceChar).reverse.dropWhile isSpaceChar).reverse

/-- Python `str.strip()`. -/
def pyStrip (s : String) : String := ⟨trimChars s.data⟩

/-- Python `str.lower()` (ASCII). -/
def pyLower (s : String) : String := ⟨s.data.map Char.toLower⟩

/-- Python `str.replace(c, '')`: remove every occurrence of a character. -/
def removeChar (c : Char) (s : String) : String := ⟨s.data.filter (fun x => x ≠ c)⟩

/-- Does `n` occur at the start of `l`? (list analogue of Python `str.startswith`). -/
def startsWith : List Char → List Char → Bool
  | [], _ => true
  | _ :: _, [] => false
  | a :: as, b :: bs => a == b && startsWith as bs

/-- Python's substring test `n in l`, on character lists. -/
def subList (n : List Char) : List Char → Bool
  | [] => startsWith n []
  | c :: t => startsWith n (c :: t) || subList n t

/-- Python's substring test `kw in s` on strings. -/
def subStr (kw s : String) : Bool := subList kw.data s.data

/-- Numeric value of a digit list (most significant first). -/
def digitsVal (l : List Char) : Nat :=
  l.foldl (fun a c => a * 10 + (c.toNat - '0'.toNat)) 0

/-- Python `int(s)` on the digit-only strings produced by the source's regex
groups; `none` models `ValueError`. -/
def pyInt (s : String) : Option Nat :=
  if s.data ≠ [] ∧ s.data.all Char.isDigit then some (digitsVal s.data) else none

/-- Python `str.isdigit()` (ASCII). -/
def pyIsDigit (s : String) : Bool := !s.data.isEmpty && s.data.all Char.isDigit

/-- Python `s.split(sep)` for a one-character separator (keeps empty pieces). -/
def splitCharAux (sep : Char) : List Char → List Char → List String
  | [], acc => [⟨acc.reverse⟩]
  | c :: t, acc =>
      if c = sep then ⟨acc.reverse⟩ :: splitCharAux sep t []
      else splitCharAux sep t (c :: acc)

def pySplit (sep : Char) (s : String) : List String := splitCharAux sep s.data []

/-! ### Exact rational arithmetic

Python-float values are modelled exactly.  `Q` is a rational kept in lowest
terms with a positive denominator; every operation normalizes, so the derived
structural equality is value equality on everything the pipeline produces.
(The claims under check only involve values and comparisons that are exact in
either float or rational arithmetic.) -/

structure Q where
  num : Int
  den : Nat
deriving DecidableEq

/-- Normalized rational `n / d` (for `d ≠ 0`; `d = 0` never arises). -/
def mkQ (n : Int) (d : Nat) : Q :=
  if d = 0 then ⟨0, 1⟩
  else
    let g := Nat.gcd n.natAbs d
    ⟨n / (g : Int), d / g⟩

instance (n : Nat) : OfNat Q n := ⟨⟨(n : Int), 1⟩⟩

def Q.add (a b : Q) : Q := mkQ (a.num * (b.den : Int) + b.num * (a.den : Int)) (a.den * b.den)

def Q.mul (a b : Q) : Q := mkQ (a.num * b.num) (a.den * b.den)

/-- Division (the sources only divide by positive quantities). -/
def Q.div (a b : Q) : Q :=
  let n := a.num * (b.den : Int)
  let m := (a.den : Int) * b.num
  if m = 0 then ⟨0, 1⟩
  else if m < 0 then mkQ (-n) (-m).toNat
  else mkQ n m.toNat

instance : Add Q := ⟨Q.add⟩

instance : Mul Q := ⟨Q.mul⟩

instance : Div Q := ⟨Q.div⟩

def Q.le (a b : Q) : Prop := a.num * (b.den : Int) ≤ b.num * (a.den : Int)

def Q.lt (a b : Q) : Prop := a.num * (b.den : Int) < b.num * (a.den : Int)

instance : LE Q := ⟨Q.le⟩

instance : LT Q := ⟨Q.lt⟩

instance (a b : Q) : Decidable (a ≤ b) := Int.decLe _ _

instance (a b : Q) : Decidable (a < b) := Int.decLt _ _

theorem Q.lt_of_not_le {a b : Q} (h : ¬ a ≤ b) : b < a := Int.lt_of_not_ge h

/-- Python `float(s)` on strings of shape `digits`, `digits.digits`, `.digits`
or `digits.` (the only shapes the source feeds it); the value is exact.
`none` models `ValueError`. -/
def parseDecimal (s : String) : Option Q :=
  match pySplit '.' s with
  | [a] =>
      if a.data ≠ [] ∧ a.data.all Char.isDigit then some (mkQ (digitsVal a.data) 1) else none
  | [a, b] =>
      if (a.data ≠ [] ∨ b.data ≠ []) ∧ a.data.all Char.isDigit ∧ b.data.all Char.isDigit then
        some (mkQ (digitsVal a.data * 10 ^ b.data.length + digitsVal b.data) (10 ^ b.data.length))
      else none
  | _ => none

/-! ### A small backtracking regex engine

Character classes and regex syntax sufficient for every pattern in the
source.  `mrun` is a continuation-passing backtracking matcher; alternation
prefers the left branch and `star`'s `lazy` flag selects Python's greedy or
lazy preference order, so the first match found agrees with Python `re`. -/

/-- Character classes of the source's patterns. -/
inductive CC where
  | digit
  | space
  | wordc
  | dot
  | lit (c : Char)
  | litCI (c : Char)
  | oneOf (cs : List Char)

def ccMatches : CC → Char → Bool
  | .digit, c => c.isDigit
  | .space, c => isSpaceChar c
  | .wordc, c => isWordChar c
  | .dot, c => c ≠ '\n'
  | .lit a, c => a == c
  | .litCI a, c => a == c || a == c.toLower
  | .oneOf cs, c => cs.contains c

/-- Regex abstract syntax. `grp n r` is capture group `n`. -/
inductive RE where
  | eps
  | eos
  | cc (k : CC)
  | seq (a b : RE)
  | alt (a b : RE)
  | star (r : RE) (lazy : Bool)
  | grp (n : Nat) (r : RE)

/-- Captured groups: group index paired with captured characters; the most
recent capture of an index is first. -/
abbrev Caps := List (Nat × List Char)

/-- Backtracking matcher in continuation-passing style.  The continuation
receives the remaining input and captures; the first success in Python's
preference order wins.  `fuel` bounds the recursion (every recursive call
decreases it) and is chosen large enough at call sites. -/
def mrun : Nat → RE → List Char → Caps → (List Char → Caps → Option Caps) → Option Caps
  | 0, _, _, _, _ => none
  | f + 1, re, s, caps, k =>
    match re with
    | .eps => k s caps
    | .eos => if s.isEmpty then k s caps else none
    | .cc c =>
        match s with
        | [] => none
        | ch :: rest => if ccMatches c ch then k rest caps else none
    | .seq a b => mrun f a s caps (fun s1 c1 => mrun f b s1 c1 k)
    | .alt a b =>
        match mrun f a s caps k with
        | some r => some r
        | none => mrun f b s caps k
    | .star r lz =>
        if lz then
          match k s caps with
          | some res => some res
          | none =>
              mrun f r s caps (fun s1 c1 =>
                if s1.length < s.length then mrun f (.star r lz) s1 c1 k else none)
        else
          match mrun f r s caps (fun s1 c1 =>
              if s1.length < s.length then mrun f (.star r lz) s1 c1 k else none) with
          | some res => some res
          | none => k s caps
    | .grp n r =>
        mrun f r s caps (fun s1 c1 => k s1 ((n, s.take (s.length - s1.length)) :: c1))

/-- Fuel used for every pattern in this development; ample for receipt lines. -/
def FUEL : Nat := 1000000

/-- Python `re.match(pattern, s)`: anchored at the start, returning captures. -/
def reMatchCaps (re : RE) (s : String) : Option Caps :=
  mrun FUEL re s.data [] (fun _ c => some c)

/-- Does `re.match` succeed? -/
def reMatches (re : RE) (s : String) : Bool := (reMatchCaps re s).isSome

/-- Python `re.search`: try successive start positions, leftmost match wins. -/
def searchAux (re : RE) : List Char → Option Caps
  | [] => mrun FUEL re [] [] (fun _ c => some c)
  | c :: t =>
    match mrun FUEL re (c :: t) [] (fun _ c => some c) with
    | some r => some r
    | none => searchAux re t

def reSearchCaps (re : RE) (s : String) : Option Caps := searchAux re s.data

/-- Contents of capture group `n` (empty when absent, which never happens for
the groups the source reads). -/
def capStr (n : Nat) (caps : Caps) : String :=
  match caps.find? (fun p => p.1 == n) with
  | some p => ⟨p.2⟩
  | none => ""

/-! Regex-building helpers. -/

def reSeq (l : List RE) : RE := l.foldr RE.seq RE.eps

def reStrCI (s : String) : RE := reSeq (s.data.map (fun c => RE.cc (CC.litCI c)))

def reOpt (r : RE) : RE := RE.alt r RE.eps

def rePlus (r : RE) : RE := RE.seq r (RE.star r false)

def rePlusLazy (r : RE) : RE := RE.seq r (RE.star r true)

/-- Exactly `n` repetitions. -/
def reRepN : Nat → RE → RE
  | 0, _ => RE.eps
  | n + 1, r => RE.seq r (reRepN n r)

/-- Zero to `n` repetitions, greedy. -/
def reUpTo : Nat → RE → RE
  | 0, _ => RE.eps
  | n + 1, r => RE.alt (RE.seq r (reUpTo n r)) RE.eps

/-- `m` to `n` repetitions, greedy (Python `{m,n}`). -/
def reRange (m n : Nat) (r : RE) : RE := RE.seq (reRepN m r) (reUpTo (n - m) r)

def dch : RE := RE.cc CC.digit

def sch : RE := RE.cc CC.space

def slashDash : RE := RE.cc (CC.oneOf ['/', '-'])

/-! ### The source's regex patterns -/

/-- `\d+\.?\d{2}` — the price shape shared by the item patterns. -/
def priceNum : RE := reSeq [rePlus dch, reOpt (RE.cc (CC.lit '.')), dch, dch]

/-- `\d+(?:\.\d+)?` — the quantity shape of the primary pattern 2. -/
def decNum : RE := reSeq [rePlus dch, reOpt (reSeq [RE.cc (CC.lit '.'), rePlus dch])]

/-- `^(.+?)\s+\$?\s*(\d+\.?\d{2})\s*$` (Item $price). -/
def itemPat1 : RE :=
  reSeq [RE.grp 1 (rePlusLazy (RE.cc CC.dot)), rePlus sch, reOpt (RE.cc (CC.lit '$')),
         RE.star sch false, RE.grp 2 priceNum, RE.star sch false, RE.eos]

/-- `^(.+?)\s+x?\s*(\d+(?:\.\d+)?)\s+\$?(\d+\.?\d{2})$` (Item x2 $price). -/
def itemPat2 : RE :=
  reSeq [RE.grp 1 (rePlusLazy (RE.cc CC.dot)), rePlus sch, reOpt (RE.cc (CC.litCI 'x')),
         RE.star sch false, RE.grp 2 decNum, rePlus sch, reOpt (RE.cc (CC.lit '$')),
         RE.grp 3 priceNum, RE.eos]

/-- `^(.+?)\s+(\d+\.?\d{2})\s*\$?\s*$` (Item price). -/
def itemPat3 : RE :=
  reSeq [RE.grp 1 (rePlusLazy (RE.cc CC.dot)), rePlus sch, RE.grp 2 priceNum,
         RE.star sch false, reOpt (RE.cc (CC.lit '$')), RE.star sch false, RE.eos]

/-- `^(.+?)\s+(\d+)\s+x\s+\$?(\d+\.?\d{2})$` (Item 2 x $price). -/
def itemPat4 : RE :=
  reSeq [RE.grp 1 (rePlusLazy (RE.cc CC.dot)), rePlus sch, RE.grp 2 (rePlus dch), rePlus sch,
         RE.cc (CC.litCI 'x'), rePlus sch, reOpt (RE.cc (CC.lit '$')), RE.grp 3 priceNum, RE.eos]

/-- The enhanced variant of pattern 2: `^(.+?)\s+x?\s*(\d+)\s+\$?(\d+\.?\d{2})$`
(integer quantity only). -/
def itemPat2E : RE :=
  reSeq [RE.grp 1 (rePlusLazy (RE.cc CC.dot)), rePlus sch, reOpt (RE.cc (CC.litCI 'x')),
         RE.star sch false, RE.grp 2 (rePlus dch), rePlus sch, reOpt (RE.cc (CC.lit '$')),
         RE.grp 3 priceNum, RE.eos]

/-- Ordered primary item patterns with their group counts. -/
def itemPatternsPrimary : List (RE × Nat) :=
  [(itemPat1, 2), (itemPat2, 3), (itemPat3, 2), (itemPat4, 3)]

/-- Ordered enhanced item patterns with their group counts. -/
def itemPatternsEnhanced : List (RE × Nat) :=
  [(itemPat1, 2), (itemPat2E, 3), (itemPat3, 2), (itemPat4, 3)]

/-- `^\d+(\.\d+)?[xX]\s*\$?\s*\d+` — "quantity×price" noise line. -/
def noisePat1 : RE :=
  reSeq [rePlus dch, reOpt (reSeq [RE.cc (CC.lit '.'), rePlus dch]), RE.cc (CC.oneOf ['x', 'X']),
         RE.star sch false, reOpt (RE.cc (CC.lit '$')), RE.star sch false, rePlus dch]

/-- `^\s*\$?\s*\d{1,2}(?:[.,]\d{3})*(?:\.\d{2})?\s*$` — purely numeric line. -/
def noisePat2 : RE :=
  reSeq [RE.star sch false, reOpt (RE.cc (CC.lit '$')), RE.star sch false, reRange 1 2 dch,
         RE.star (reSeq [RE.cc (CC.oneOf ['.', ',']), reRepN 3 dch]) false,
         reOpt (reSeq [RE.cc (CC.lit '.'), reRepN 2 dch]), RE.star sch false, RE.eos]

/-- `^\d{1,2}[∕-]` — item-name date-like check in the item extractor. -/
def nameDatePat : RE := reSeq [reRange 1 2 dch, slashDash]

/-- `^\d{1,2}[∕-]\d{1,2}[∕-]\d{2,4}` — date-like check in the categorizer. -/
def catDatePat : RE :=
  reSeq [reRange 1 2 dch, slashDash, reRange 1 2 dch, slashDash, reRange 2 4 dch]

/-- `^\d+(\.\d+)?[xX]` — quantity-shorthand check in the categorizer. -/
def catXPat : RE :=
  reSeq [rePlus dch, reOpt (reSeq [RE.cc (CC.lit '.'), rePlus dch]), RE.cc (CC.oneOf ['x', 'X'])]

/-- `(\d{1,2})[∕-](\d{1,2})[∕-](\d{2,4})` — MM/DD/YYYY or DD/MM/YYYY. -/
def datePat1 : RE :=
  reSeq [RE.grp 1 (reRange 1 2 dch), slashDash, RE.grp 2 (reRange 1 2 dch), slashDash,
         RE.grp 3 (reRange 2 4 dch)]

/-- `(\d{4})[∕-](\d{1,2})[∕-](\d{1,2})` — YYYY/MM/DD. -/
def datePat2 : RE :=
  reSeq [RE.grp 1 (reRepN 4 dch), slashDash, RE.grp 2 (reRange 1 2 dch), slashDash,
         RE.grp 3 (reRange 1 2 dch)]

/-- `(\w{3,9})\s+(\d{1,2}),\s+(\d{4})` — Month DD, YYYY. -/
def datePat3 : RE :=
  reSeq [RE.grp 1 (reRange 3 9 (RE.cc CC.wordc)), rePlus sch, RE.grp 2 (reRange 1 2 dch),
         RE.cc (CC.lit ','), rePlus sch, RE.grp 3 (reRepN 4 dch)]

/-- The source's `date_patterns`, in order. -/
def datePatterns : List RE := [datePat1, datePat2, datePat3]

/-- `\d{1,3}(?:[.,]\d{3})*(?:\.\d{2})?` — amount with optional separators. -/
def amountNum : RE :=
  reSeq [reRange 1 3 dch, RE.star (reSeq [RE.cc (CC.oneOf ['.', ',']), reRepN 3 dch]) false,
         reOpt (reSeq [RE.cc (CC.lit '.'), reRepN 2 dch])]

/-- `(?:total|grand\s+total|amount\s+due|balance)[:\s]*\$?\s*(amount)`. -/
def totalPat1 : RE :=
  reSeq [RE.alt (reStrCI "total")
          (RE.alt (reSeq [reStrCI "grand", rePlus sch, reStrCI "total"])
            (RE.alt (reSeq [reStrCI "amount", rePlus sch, reStrCI "due"]) (reStrCI "balance"))),
         RE.star (RE.cc (CC.oneOf [':', ' ', '\t', '\n', '\r', '\x0b', '\x0c'])) false,
         reOpt (RE.cc (CC.lit '$')), RE.star sch false, RE.grp 1 amountNum]

/-- `\$\s*(amount)\s*(?:total|due|amount)?`. -/
def totalPat2 : RE :=
  reSeq [RE.cc (CC.lit '$'), RE.star sch false, RE.grp 1 amountNum, RE.star sch false,
         reOpt (RE.alt (reStrCI "total") (RE.alt (reStrCI "due") (reStrCI "amount")))]

/-- The source's `total_patterns`, in order. -/
def totalPatterns : List RE := [totalPat1, totalPat2]

/-! ### The categorizer (`_categorize_item`) -/

def dairyKeywords : List String :=
  ["organic a2", "a2 milk", "half & half", "greek yogurt", "sour cream", "cottage cheese",
   "whole milk", "skim milk", "almond milk", "soy milk", "oat milk", "coconut milk",
   "milk", "cheese", "butter", "yogurt", "cream", "dairy", "mozzarella", "cheddar",
   "parmesan", "swiss", "feta", "cream cheese", "ricotta"]

def grainKeywords : List String :=
  ["whole wheat", "white bread", "wheat bread", "sourdough", "multigrain",
   "bread", "wheat", "grain", "flour", "rice", "pasta", "noodle", "quinoa",
   "oats", "cereal", "bagel", "tortilla", "naan", "roti", "pita", "wraps",
   "buns", "rolls", "basmati", "jasmine rice", "brown rice", "white rice"]

def fruitKeywords : List String :=
  ["strawberry", "blueberry", "raspberry", "blackberry", "cranberry",
   "pineapple", "mango", "avocado", "grapefruit", "watermelon", "cantaloupe",
   "apple", "banana", "orange", "berry", "grape", "fruit", "fruits",
   "citrus", "peach", "pear", "plum", "kiwi", "lemon", "lime", "cherry"]

def vegetableKeywords : List String :=
  ["bell pepper", "green pepper", "red pepper", "broccoli", "cauliflower", "cucumber",
   "lettuce", "spinach", "tomato", "potato", "onion", "carrot", "pepper",
   "vegetable", "vegetables", "veggie", "veggies", "garlic", "ginger", "celery",
   "corn", "peas", "beans", "cabbage", "zucchini", "squash", "eggplant",
   "mushroom", "asparagus", "brussels sprouts"]

def meatKeywords : List String :=
  ["ground beef", "ground turkey", "ground chicken", "chicken breast", "chicken thighs",
   "salmon", "tuna", "shrimp", "crab", "lobster", "tilapia", "cod", "halibut",
   "chicken", "beef", "pork", "fish", "meat", "seafood", "turkey", "lamb",
   "bacon", "sausage", "ham", "hot dog", "burger", "steak", "ribs"]

def herbKeywords : List String :=
  ["cilantro", "coriander", "basil", "parsley", "rosemary", "thyme", "mint",
   "oregano", "sage", "dill", "herb", "herbs", "chives", "tarragon"]

def daalKeywords : List String :=
  ["toor dal", "moong dal", "chana dal", "masoor dal", "urad dal",
   "daal", "dal", "lentil", "lentils", "pulse", "legume"]

def pasteKeywords : List String :=
  ["toothpaste", "tomato paste", "garlic paste", "ginger paste", "curry paste",
   "paste", "tooth", "dental"]

def poojaKeywords : List String :=
  ["pooja", "puja", "incense", "diya", "camphor", "kumkum", "agarbatti", "dhoop"]

def snacksKeywords : List String :=
  ["potato chips", "tortilla chips", "corn chips", "pretzel", "trail mix", "granola",
   "chips", "candy", "cookies", "snack", "snacks", "chocolate", "crackers",
   "nuts", "almond", "walnut", "peanut", "cashew", "pistachio"]

def syrupKeywords : List String :=
  ["maple syrup", "chocolate syrup", "caramel syrup",
   "syrup", "honey", "molasses", "agave", "jam", "jelly", "preserve"]

def bodySoapKeywords : List String :=
  ["body soap", "hand soap", "bar soap", "body wash", "shower gel", "liquid soap",
   "soap", "bath", "cleanser"]

def householdKeywords : List String :=
  ["dish soap", "laundry detergent", "dishwasher detergent", "trash bag", "ziploc",
   "detergent", "tissue", "paper", "cleaner", "disinfectant", "bleach",
   "foil", "wrap", "sponge", "brush", "towel", "napkin", "toilet paper"]

def beveragesKeywords : List String :=
  ["orange juice", "apple juice", "cranberry juice", "iced tea", "green tea",
   "juice", "soda", "water", "drink", "coffee", "tea", "beer", "wine",
   "beverage", "lemonade", "smoothie", "energy drink", "sports drink"]

def personalCareKeywords : List String :=
  ["hair shampoo", "body lotion", "face wash", "face moisturizer",
   "shampoo", "conditioner", "deodorant", "lotion", "moisturizer", "sunscreen",
   "razor", "toothbrush", "floss", "mouthwash", "toner", "serum", "cream"]

/-- The `categories` table in the source's (dict-insertion) order. -/
def categoriesTable : List (String × List String) :=
  [("Dairy", dairyKeywords), ("Grain", grainKeywords), ("Fruit", fruitKeywords),
   ("Vegetable", vegetableKeywords), ("Meat & Seafood", meatKeywords), ("Herb", herbKeywords),
   ("Daal", daalKeywords), ("Paste", pasteKeywords), ("Pooja item", poojaKeywords),
   ("Snacks", snacksKeywords), ("Syrup", syrupKeywords), ("Body soap", bodySoapKeywords),
   ("Household", householdKeywords), ("Beverages", beveragesKeywords),
   ("Personal Care", personalCareKeywords)]

/-- Stable insertion by descending length (for Python's stable
`sorted(keywords, key=len, reverse=True)`). -/
def insertByLenDesc (x : String) : List String → List String
  | [] => [x]
  | y :: ys => if y.length < x.length then x :: y :: ys else y :: insertByLenDesc x ys

/-- Python's stable `sorted(keywords, key=len, reverse=True)`. -/
def sortByLenDesc (l : List String) : List String :=
  l.foldl (fun acc x => insertByLenDesc x acc) []

/-- Does `kw` occur at this position with word boundaries on both sides, given
the previous character? -/
def wbHere (kw : List Char) (prev : Option Char) (s : List Char) : Bool :=
  startsWith kw s &&
  (match prev with | none => true | some c => !isWordChar c) &&
  (match s.drop kw.length with | [] => true | c :: _ => !isWordChar c)

/-- Scan positions for a word-boundary occurrence of `kw`. -/
def wbAt (kw : List Char) : Option Char → List Char → Bool
  | prev, [] => wbHere kw prev []
  | prev, c :: t => wbHere kw prev (c :: t) || wbAt kw (some c) t

/-- Python `re.search(r'\b' + re.escape(kw) + r'\b', s)` for a single-word
keyword. -/
def wbSearch (kw : List Char) (s : List Char) : Bool := wbAt kw none s

/-- One keyword test: multi-word keywords by substring, single-word keywords by
word-boundary search. -/
def kwHit (nl : List Char) (kw : String) : Bool :=
  if kw.data.contains ' ' then subList kw.data nl else wbSearch kw.data nl

/-- Scan the category table in order; first category with a matching keyword
(longest keywords tried first) wins. -/
def scanCategories (nl : List Char) : List (String × List String) → String
  | [] => "Uncategorized"
  | (cat, kws) :: rest =>
      if (sortByLenDesc kws).any (kwHit nl) then cat else scanCategories nl rest

/-- The "looks like a price, date, or password" guard of `_categorize_item`,
applied to the lowered, stripped name. -/
def catGuard (name_lower : String) : Bool :=
  pyIsDigit (removeChar ',' (removeChar '.' name_lower)) ||
  reMatches catDatePat name_lower || reMatches catXPat name_lower ||
  subStr "password" name_lower || subStr "pin" name_lower

def categorizeItem (item_name : String) : String :=
  if item_name.data = [] ∨ (pyStrip item_name).length < 2 then "Uncategorized"
  else if catGuard (pyStrip (pyLower item_name)) then "Uncategorized"
  else scanCategories (pyStrip (pyLower item_name)).data categoriesTable

/-! ### Data model -/

/-- A calendar date; `mkDate` performs the validation `datetime(y, m, d)` does. -/
structure PDate where
  year : Nat
  month : Nat
  day : Nat
deriving DecidableEq

def isLeapYear (y : Nat) : Bool := (y % 4 = 0 && y % 100 ≠ 0) || y % 400 = 0

def daysInMonth (y m : Nat) : Nat :=
  if m = 2 then (if isLeapYear y then 29 else 28)
  else if m = 4 ∨ m = 6 ∨ m = 9 ∨ m = 11 then 30
  else 31

/-- `datetime(y, m, d).date()`; `none` models the `ValueError` it raises. -/
def mkDate (y m d : Nat) : Option PDate :=
  if 1 ≤ y ∧ y ≤ 9999 ∧ 1 ≤ m ∧ m ≤ 12 ∧ 1 ≤ d ∧ d ≤ daysInMonth y m then
    some ⟨y, m, d⟩
  else none

def pad2 (n : Nat) : String := if n < 10 then "0" ++ toString n else toString n

def pad4 (n : Nat) : String :=
  if n < 10 then "000" ++ toString n
  else if n < 100 then "00" ++ toString n
  else if n < 1000 then "0" ++ toString n
  else toString n

/-- Python `date.isoformat()`. -/
def isoFormat (d : PDate) : String := pad4 d.year ++ "-" ++ pad2 d.month ++ "-" ++ pad2 d.day

/-- One extracted line item, in the source's CSV-format structure: Item Name,
Quantity, Cost per unit, Total amount paid, Item Type, Item Sub Type. -/
structure Item where
  name : String
  quantity : Q
  price : Q
  total : Q
  itemType : String
  subType : String
deriving DecidableEq

/-- The dict `_parse_bill_text_to_csv_format` returns: Date, Shop Address,
line_items, total_amount. -/
structure Bill where
  date : PDate
  shop : String
  items : List Item
  total : Q
deriving DecidableEq

def sumTotals (items : List Item) : Q := items.foldl (fun a it => a + it.total) 0

/-! ### Shop-name extraction -/

def retailKeywordsPrimary : List String :=
  ["store", "shop", "mart", "market", "supermarket", "retail", "grocery", "costco", "walmart",
   "target", "safeway", "kroger"]

def shopSkipKeywords : List String := ["date", "time", "invoice", "receipt"]

def retailKeywordsEnhanced : List String :=
  ["store", "shop", "mart", "market", "supermarket", "retail", "grocery"]

def shopSkipKeywordsEnhanced : List String :=
  ["date", "time", "invoice", "receipt", "total", "subtotal"]

/-- Scan of `lines[:10]` in `_parse_bill_text_to_csv_format`: a retail-keyword
line wins immediately; otherwise the first long non-metadata line is kept as a
fallback while scanning continues. -/
def shopScanPrimary : List String → String → String
  | [], acc => acc
  | l :: rest, acc =>
      let line := pyStrip l
      if line.data ≠ [] ∧ line.length > 3 then
        if retailKeywordsPrimary.any (fun kw => subStr kw (pyLower line)) then line
        else if acc = "Unknown Shop" ∧ line.length > 5 ∧
            ¬ shopSkipKeywords.any (fun kw => subStr kw (pyLower line)) then
          shopScanPrimary rest line
        else shopScanPrimary rest acc
      else shopScanPrimary rest acc

def extractShopPrimary (lines : List String) : String :=
  shopScanPrimary (lines.take 10) "Unknown Shop"

/-- Scan of `lines[:15]` in `_parse_bill_text_enhanced_to_csv_format`:
metadata lines are skipped outright, then as in the primary scan. -/
def shopScanEnhanced : List String → String → String
  | [], acc => acc
  | l :: rest, acc =>
      let line := pyStrip l
      if line.data ≠ [] ∧ line.length > 3 then
        if shopSkipKeywordsEnhanced.any (fun kw => subStr kw (pyLower line)) then
          shopScanEnhanced rest acc
        else if retailKeywordsEnhanced.any (fun kw => subStr kw (pyLower line)) then line
        else if acc = "Unknown Shop" ∧ line.length > 5 then shopScanEnhanced rest line
        else shopScanEnhanced rest acc
      else shopScanEnhanced rest acc

def extractShopEnhanced (lines : List String) : String :=
  shopScanEnhanced (lines.take 15) "Unknown Shop"

/-! ### Date extraction

The source tries `date_patterns` per line; a successful `datetime` build
breaks the pattern loop, and any exception (`int` or `datetime`) moves to the
next pattern.  A match only updates the date when the line contains a slash
or dash — the textual `Month DD, YYYY` pattern has no handler branch. -/

/-- Process one line's pattern loop; `none` when no pattern sets the date. -/
def tryDatePatternsOn (line : String) : List RE → Option PDate
  | [] => none
  | p :: rest =>
      match reSearchCaps p line with
      | none => tryDatePatternsOn line rest
      | some caps =>
          if line.data.contains '/' ∨ line.data.contains '-' then
            let p1 := capStr 1 caps
            let p2 := capStr 2 caps
            let p3 := capStr 3 caps
            if p1.length = 4 then
              match pyInt p1, pyInt p2, pyInt p3 with
              | some y, some m, some d =>
                  match mkDate y m d with
                  | some dt => some dt
                  | none => tryDatePatternsOn line rest
              | _, _, _ => tryDatePatternsOn line rest
            else
              match pyInt p1 with
              | none => tryDatePatternsOn line rest
              | some v1 =>
                  let dayS := if v1 > 12 then p1 else p2
                  let monS := if v1 > 12 then p2 else p1
                  let yearS := if p3.length = 2 then "20" ++ p3 else p3
                  match pyInt yearS, pyInt monS, pyInt dayS with
                  | some y, some m, some d =>
                      match mkDate y m d with
                      | some dt => some dt
                      | none => tryDatePatternsOn line rest
                  | _, _, _ => tryDatePatternsOn line rest
          else tryDatePatternsOn line rest

/-- The date after one line of the outer loop. -/
def lineDate (line : String) (cur : PDate) : PDate :=
  match tryDatePatternsOn line datePatterns with
  | some d => d
  | none => cur

/-- The outer loop: scanning stops after the first line whose processing
leaves the date different from today's. -/
def dateScan (today : PDate) : List String → PDate → PDate
  | [], cur => cur
  | l :: rest, cur =>
      if lineDate l cur = today then dateScan today rest (lineDate l cur) else lineDate l cur

def extractDate (lines : List String) (today : PDate) : PDate :=
  dateScan today lines today

/-! ### Total-amount extraction (last 10 lines) -/

/-- One line's pattern loop: the first pattern whose captured amount parses
sets the total (even to zero) and breaks; a parse failure moves on. -/
def tryTotalPatternsOn (line : String) : List RE → Q → Q
  | [], cur => cur
  | p :: rest, cur =>
      match reSearchCaps p line with
      | none => tryTotalPatternsOn line rest cur
      | some caps =>
          match parseDecimal (removeChar ' ' (removeChar ',' (capStr 1 caps))) with
          | some v => v
          | none => tryTotalPatternsOn line rest cur

/-- The outer loop: stops after the first line leaving a positive total. -/
def totalScan : List String → Q → Q
  | [], cur => cur
  | l :: rest, cur =>
      if tryTotalPatternsOn l totalPatterns cur > 0 then tryTotalPatternsOn l totalPatterns cur
      else totalScan rest (tryTotalPatternsOn l totalPatterns cur)

def extractTotal (lines : List String) : Q :=
  totalScan (lines.drop (lines.length - 10)) 0

/-! ### Line-item extraction

Inside the per-line pattern loop every rejection (invalid captured name,
integer-looking bare value, out-of-range price) is a `continue` of the
*pattern* loop: the next pattern still gets a chance on the same line. -/

def skipKeywordsPrimary : List String :=
  ["item", "description", "qty", "quantity", "price", "total", "subtotal",
   "tax", "receipt", "invoice", "date", "time", "cashier", "register",
   "password", "pin", "card", "signature", "thank", "visit", "change",
   "cash", "tendered", "balance", "discount", "coupon", "voucher",
   "refund", "return", "exchange", "void", "cancelled", "transaction"]

def skipKeywordsEnhanced : List String :=
  ["item", "description", "qty", "quantity", "price", "total", "subtotal",
   "tax", "receipt", "invoice", "date", "time", "password", "pin", "card",
   "signature", "thank", "visit", "change", "cash", "tendered", "balance"]

/-- The final validation and construction step shared by both group shapes:
`if item_price <= 0 or item_price >= 1000 or item_total >= 1000: continue`. -/
def finishItem (item_name : String) (quantity item_price item_total : Q) : Option Item :=
  if item_price ≤ 0 ∨ 1000 ≤ item_price ∨ 1000 ≤ item_total then none
  else some ⟨item_name, quantity, item_price, item_total, categorizeItem item_name, "NA"⟩

/-- Quantity/price extraction from the matched groups (`item_name` is the
stripped group 1): the "Skip if item name looks invalid" check, then the
3-group (quantity and price) or 2-group (bare price, which must contain a
dot) computation. -/
def attemptItemGroups (nGroups : Nat) (item_name : String) (caps : Caps) : Option Item :=
  if pyIsDigit (removeChar ',' (removeChar '.' item_name)) ||
      reMatches nameDatePat item_name || item_name.length < 2 then none
  else if nGroups = 3 then
    match parseDecimal (capStr 2 caps), parseDecimal (removeChar ',' (capStr 3 caps)) with
    | some quantity, some item_price =>
        finishItem item_name quantity item_price (item_price * quantity)
    | _, _ => none
  else if (removeChar ',' (capStr 2 caps)).data.contains '.' then
    match parseDecimal (removeChar ',' (capStr 2 caps)) with
    | some item_price => finishItem item_name 1 item_price item_price
    | none => none
  else none

def attemptItemPattern (p : RE) (nGroups : Nat) (line : String) : Option Item :=
  match reMatchCaps p line with
  | none => none
  | some caps => attemptItemGroups nGroups (pyStrip (capStr 1 caps)) caps

/-- The pattern loop: first pattern that matches *and survives validation*
wins for the line. -/
def tryItemPatterns : List (RE × Nat) → String → Option Item
  | [], _ => none
  | (p, n) :: rest, line =>
      match attemptItemPattern p n line with
      | some it => some it
      | none => tryItemPatterns rest line

/-- Process one raw line of the item loop; `none` is a skipped line. -/
def processStrippedLine (skipKws : List String) (pats : List (RE × Nat)) (line : String) :
    Option Item :=
  if line.data = [] ∨ line.length < 3 then none
  else if skipKws.any (fun kw => subStr kw (pyLower line)) then none
  else if reMatches noisePat1 line then none
  else if reMatches noisePat2 line then none
  else tryItemPatterns pats line

def processItemLine (skipKws : List String) (pats : List (RE × Nat)) (raw : String) :
    Option Item :=
  processStrippedLine skipKws pats (pyStrip raw)

/-- The item loop over all lines, appending in document order. -/
def extractItemsWith (skipKws : List String) (pats : List (RE × Nat))
    (lines : List String) : List Item :=
  lines.foldl (fun acc l =>
    match processItemLine skipKws pats l with
    | some it => acc ++ [it]
    | none => acc) []

/-! ### The two bill parsers, the mock fallback, and `extract_from_image` -/

/-- `_parse_bill_text_to_csv_format`. -/
def reconcileTotal (line_items : List Item) (total_amount : Q) : Q :=
  if line_items ≠ [] ∧ total_amount = 0 then sumTotals line_items else total_amount

def parseBillTextToCsvFormat (text : String) (today : PDate) : Bill :=
  ⟨extractDate (pySplit '\n' text) today,
   extractShopPrimary (pySplit '\n' text),
   extractItemsWith skipKeywordsPrimary itemPatternsPrimary (pySplit '\n' text),
   reconcileTotal (extractItemsWith skipKeywordsPrimary itemPatternsPrimary (pySplit '\n' text))
     (extractTotal (pySplit '\n' text))⟩

/-- `_parse_bill_text_enhanced_to_csv_format`. -/
def parseBillTextEnhancedToCsvFormat (text : String) (today : PDate) : Bill :=
  ⟨extractDate (pySplit '\n' text) today,
   extractShopEnhanced (pySplit '\n' text),
   extractItemsWith skipKeywordsEnhanced itemPatternsEnhanced (pySplit '\n' text),
   reconcileTotal (extractItemsWith skipKeywordsEnhanced itemPatternsEnhanced (pySplit '\n' text))
     (extractTotal (pySplit '\n' text))⟩

/-- `_mock_extract`: the fixed demonstration fallback bill. -/
def mockExtract (today : PDate) : Bill :=
  ⟨today, "Sample Store",
   [⟨"Milk 2L", 1, 399/100, 399/100, "Dairy", "NA"⟩,
    ⟨"Bread", 2, 5/2, 5, "Grain", "NA"⟩,
    ⟨"Apple", 3/2, 399/100, 599/100, "Fruit", "NA"⟩],
   1498/100⟩

/-- `extract_from_image`, abstracted over the external OCR outcome: `none`
models the OCR/parsing pipeline throwing, `some text` the raw recognized
text.  Insufficient text (trimmed length under 10) and exceptions both fall
back to `_mock_extract`; a primary parse with fewer than 2 items is retried
with the enhanced parser. -/
def extractFromImage (ocrText : Option String) (today : PDate) : Bill :=
  match ocrText with
  | none => mockExtract today
  | some text =>
      if (pyStrip text).length < 10 then mockExtract today
      else
        let parsed := parseBillTextToCsvFormat text today
        if parsed.items.length < 2 then parseBillTextEnhancedToCsvFormat text today
        else parsed

/-! ### The wide-schema CSV branch of `upload_csv`

One CSV row of the wide ("line-item per row") schema, with the header
variants the source reads via `row.get`.  Fields default to the empty string,
as `row.get(..., '')` does for a missing column. -/

structure CsvRow where
  itemName : String := ""
  dateStr : String := ""
  shopAddress : String := ""
  shopName : String := ""
  totalAmountPaid : String := ""
  totalAmountPaidAlt : String := ""
  quantityStr : String := ""
  costPerUnit : String := ""
  costPerUnitAlt : String := ""
  itemType : String := ""
  itemTypeAlt : String := ""
  itemSubType : String := ""
deriving DecidableEq

/-- Python's `a or b` for strings (already stripped): `a` when non-empty. -/
def strOr (a b : String) : String := if a = "" then b else a

/-- One numeric field of a `strptime` format directive: digit count between
`minL` and `maxL`, value between `lo` and `hi` (as CPython's `_strptime`
regexes enforce). -/
def fieldNum (minL maxL lo hi : Nat) (s : String) : Option Nat :=
  if minL ≤ s.length ∧ s.length ≤ maxL ∧ s.data ≠ [] ∧ s.data.all Char.isDigit then
    let v := digitsVal s.data
    if lo ≤ v ∧ v ≤ hi then some v else none
  else none

def split3 (sep : Char) (s : String) : Option (String × String × String) :=
  match pySplit sep s with
  | [a, b, c] => some (a, b, c)
  | _ => none

/-- `datetime.strptime(s, '%m/%d/%Y')` (`%Y` is exactly 4 digits). -/
def strptimeMDY4 (s : String) : Option PDate :=
  match split3 '/' s with
  | some (a, b, c) =>
      match fieldNum 1 2 1 12 a, fieldNum 1 2 1 31 b, fieldNum 4 4 1 9999 c with
      | some m, some d, some y => mkDate y m d
      | _, _, _ => none
  | none => none

/-- `datetime.strptime(s, '%m/%d/%y')` (`%y`: 00-68 → 2000s, 69-99 → 1900s). -/
def strptimeMDY2 (s : String) : Option PDate :=
  match split3 '/' s with
  | some (a, b, c) =>
      match fieldNum 1 2 1 12 a, fieldNum 1 2 1 31 b, fieldNum 2 2 0 99 c with
      | some m, some d, some y2 =>
          mkDate (if y2 ≤ 68 then 2000 + y2 else 1900 + y2) m d
      | _, _, _ => none
  | none => none

/-- `datetime.strptime(s, '%Y-%m-%d')`. -/
def strptimeISO (s : String) : Option PDate :=
  match split3 '-' s with
  | some (a, b, c) =>
      match fieldNum 4 4 1 9999 a, fieldNum 1 2 1 12 b, fieldNum 1 2 1 31 c with
      | some y, some m, some d => mkDate y m d
      | _, _, _ => none
  | none => none

/-- `datetime.strptime(s, '%d/%m/%Y')`. -/
def strptimeDMY4 (s : String) : Option PDate :=
  match split3 '/' s with
  | some (a, b, c) =>
      match fieldNum 1 2 1 31 a, fieldNum 1 2 1 12 b, fieldNum 4 4 1 9999 c with
      | some d, some m, some y => mkDate y m d
      | _, _, _ => none
  | none => none

/-- The four formats tried in order for a wide-schema row's Date field. -/
def parseCsvDate (s : String) : Option PDate :=
  match strptimeMDY4 s with
  | some d => some d
  | none =>
      match strptimeMDY2 s with
      | some d => some d
      | none =>
          match strptimeISO s with
          | some d => some d
          | none => strptimeDMY4 s

/-- One grouped line item of the wide schema. -/
structure CsvItem where
  name : String
  quantity : Q
  price : Q
  total : Q
  category : String
deriving DecidableEq

/-- The outcome of the wide-schema row loop for a single row: silently
skipped (`continue`), failed with an error string, or parsed into a
`(date-iso, shop)` key and an item. -/
inductive RowOutcome where
  | skipped
  | failed (msg : String)
  | parsed (key : String × String) (it : CsvItem)

/-- The per-row body of the wide-schema loop (error strings abbreviate the
source's interpolated messages). -/
def processCsvRow (rowNum : Nat) (row : CsvRow) : RowOutcome :=
  let item_name := pyStrip row.itemName
  if item_name = "" ∨ pyLower item_name ∈ ["tax", "tax :", ""] then .skipped
  else
    let date_str := pyStrip row.dateStr
    match parseCsvDate date_str with
    | none => .skipped
    | some bill_date =>
        let shop_name := strOr (pyStrip row.shopAddress) (pyStrip row.shopName)
        let shop_name := if shop_name = "" then "Unknown Shop" else shop_name
        let bill_key := (isoFormat bill_date, shop_name)
        let total_amount_str :=
          pyStrip (removeChar ',' (removeChar '$'
            (strOr (pyStrip row.totalAmountPaid) (pyStrip row.totalAmountPaidAlt))))
        let quantity_str := pyStrip row.quantityStr
        let quantityOpt : Option Q :=
          if quantity_str ≠ "" ∧ pyLower quantity_str ≠ "na" then parseDecimal quantity_str
          else some 1
        match quantityOpt with
        | none => .failed ("Row " ++ toString rowNum ++ ": Failed to parse item")
        | some quantity =>
            let cost_per_unit_str :=
              pyStrip (removeChar ',' (removeChar '$'
                (strOr (pyStrip row.costPerUnit) (pyStrip row.costPerUnitAlt))))
            if total_amount_str ≠ "" ∧ pyLower total_amount_str ≠ "nan" then
              match parseDecimal total_amount_str with
              | none => .failed ("Row " ++ toString rowNum ++ ": Failed to parse item")
              | some item_total =>
                  let priceOpt : Option Q :=
                    if cost_per_unit_str ≠ "" ∧ pyLower cost_per_unit_str ≠ "na" then
                      parseDecimal cost_per_unit_str
                    else if quantity > 0 then some (item_total / quantity)
                    else some item_total
                  match priceOpt with
                  | none => .failed ("Row " ++ toString rowNum ++ ": Failed to parse item")
                  | some item_price =>
                      let item_sub_type := pyStrip row.itemSubType
                      let item_type := strOr (pyStrip row.itemType) (pyStrip row.itemTypeAlt)
                      let category :=
                        if item_sub_type ≠ "" ∧ pyLower item_sub_type ≠ "na" then item_sub_type
                        else if item_type ≠ "" then item_type
                        else "Uncategorized"
                      .parsed bill_key ⟨item_name, quantity, item_price, item_total, category⟩
            else .skipped

/-- `bills_dict[bill_key].append(item)`: insertion-ordered grouping. -/
def addToGroups (key : String × String) (it : CsvItem) :
    List ((String × String) × List CsvItem) → List ((String × String) × List CsvItem)
  | [] => [(key, [it])]
  | (k, its) :: rest =>
      if k = key then (k, its ++ [it]) :: rest else (k, its) :: addToGroups key it rest

/-- The row loop (row numbering starts at 2, as in the source). -/
def csvRowLoop : Nat → List CsvRow →
    List ((String × String) × List CsvItem) → List String →
    List ((String × String) × List CsvItem) × List String
  | _, [], groups, errs => (groups, errs)
  | n, r :: rest, groups, errs =>
      match processCsvRow n r with
      | .skipped => csvRowLoop (n + 1) rest groups errs
      | .failed m => csvRowLoop (n + 1) rest groups (errs ++ [m])
      | .parsed key it => csvRowLoop (n + 1) rest (addToGroups key it groups) errs

/-- A bill assembled from one wide-schema group. -/
structure CsvBill where
  shop : String
  date : PDate
  items : List CsvItem
  total : Q
deriving DecidableEq

def sumCsvTotals (items : List CsvItem) : Q := items.foldl (fun a it => a + it.total) 0

/-- The bill-creation loop over the grouped rows; `isDup` abstracts the
storage collaborator's duplicate query (`Bill.query.filter_by(...)`). -/
def csvBillLoop (isDup : String → PDate → Q → Bool) :
    List ((String × String) × List CsvItem) → List CsvBill × List String
  | [] => ([], [])
  | ((date_str, shop_name), items) :: rest =>
      let (bills, errs) := csvBillLoop isDup rest
      match strptimeISO date_str with
      | none => (bills, ("Failed to create bill for " ++ shop_name ++ " on " ++ date_str) :: errs)
      | some bill_date =>
          let total_amount := sumCsvTotals items
          if isDup shop_name bill_date total_amount then
            (bills,
             ("Duplicate bill skipped: " ++ shop_name ++ " on " ++ isoFormat bill_date) :: errs)
          else (⟨shop_name, bill_date, items, total_amount⟩ :: bills, errs)

/-- The wide-schema ("line-item format") branch of `upload_csv`: group rows
by per-row `(date, shop)` key, then build one bill per group. -/
def uploadCsvWide (isDup : String → PDate → Q → Bool) (rows : List CsvRow) :
    List CsvBill × List String :=
  let (groups, errs) := csvRowLoop 2 rows [] []
  let (bills, errs2) := csvBillLoop isDup groups
  (bills, errs ++ errs2)

/-- A storage layer with no persisted bills: every duplicate probe misses. -/
def noDup : String → PDate → Q → Bool := fun _ _ _ => false

/-! ### Helper lemmas about substring containment and trimming -/

theorem startsWith_iff : ∀ (n l : List Char), startsWith n l = true ↔ ∃ t, l = n ++ t
  | [], l => by simp [startsWith]
  | _ :: _, [] => by simp [startsWith]
  | a :: as, b :: bs => by
      rw [startsWith]
      simp only [Bool.and_eq_true, beq_iff_eq, startsWith_iff as bs, List.cons_append,
        List.cons.injEq]
      constructor
      · rintro ⟨rfl, t, rfl⟩
        exact ⟨t, rfl, rfl⟩
      · rintro ⟨t, rfl, rfl⟩
        exact ⟨rfl, t, rfl⟩

theorem subList_iff : ∀ (n l : List Char), subList n l = true ↔ ∃ a b, l = a ++ n ++ b
  | n, [] => by
      rw [subList, startsWith_iff]
      constructor
      · rintro ⟨t, ht⟩
        obtain ⟨rfl, rfl⟩ := List.append_eq_nil.mp ht.symm
        exact ⟨[], [], rfl⟩
      · rintro ⟨a, b, hab⟩
        obtain ⟨h1, rfl⟩ := List.append_eq_nil.mp hab.symm
        obtain ⟨rfl, rfl⟩ := List.append_eq_nil.mp h1
        exact ⟨[], rfl⟩
  | n, c :: t => by
      rw [subList]
      simp only [Bool.or_eq_true, startsWith_iff, subList_iff n t]
      constructor
      · rintro (⟨s, hs⟩ | ⟨a, b, rfl⟩)
        · exact ⟨[], s, by simpa using hs⟩
        · exact ⟨c :: a, b, rfl⟩
      · rintro ⟨a, b, hab⟩
        cases a with
        | nil => exact Or.inl ⟨b, by simpa using hab⟩
        | cons x xs =>
            rw [List.cons_append, List.cons_append] at hab
            injection hab with h1 h2
            exact Or.inr ⟨xs, b, by simpa using h2⟩

theorem subList_reverse {n l : List Char} (h : subList n l = true) :
    subList n.reverse l.reverse = true := by
  rw [subList_iff] at h ⊢
  obtain ⟨a, b, rfl⟩ := h
  exact ⟨b.reverse, a.reverse, by simp⟩

theorem subList_dropWhile (c : Char) (cs : List Char) (hc : isSpaceChar c = false) :
    ∀ (l : List Char), subList (c :: cs) l = true →
      subList (c :: cs) (l.dropWhile isSpaceChar) = true := by
  intro l
  induction l with
  | nil => intro h; simp [subList, startsWith] at h
  | cons x xs ih =>
      intro h
      rw [subList] at h
      simp only [Bool.or_eq_true] at h
      rcases h with h1 | h2
      · by_cases hx : isSpaceChar x = true
        · rw [startsWith] at h1
          simp only [Bool.and_eq_true] at h1
          obtain ⟨hcx, -⟩ := h1
          rw [eq_of_beq hcx, hx] at hc
          exact absurd hc (by simp)
        · have hx' : isSpaceChar x = false := by simpa using hx
          have hd : (x :: xs).dropWhile isSpaceChar = x :: xs := by
            simp [List.dropWhile, hx']
          rw [hd, subList, h1]
          simp
      · by_cases hx : isSpaceChar x = true
        · have hd : (x :: xs).dropWhile isSpaceChar = xs.dropWhile isSpaceChar := by
            simp [List.dropWhile, hx]
          rw [hd]
          exact ih h2
        · have hx' : isSpaceChar x = false := by simpa using hx
          have hd : (x :: xs).dropWhile isSpaceChar = x :: xs := by
            simp [List.dropWhile, hx']
          rw [hd, subList, h2]
          simp

theorem subList_trimChars (c : Char) (cs : List Char) (c2 : Char) (cs2 : List Char)
    (l : List Char) (hrev : (c :: cs).reverse = c2 :: cs2)
    (hc : isSpaceChar c = false) (hc2 : isSpaceChar c2 = false)
    (h : subList (c :: cs) l = true) :
    subList (c :: cs) (trimChars l) = true := by
  have h1 := subList_dropWhile c cs hc l h
  have h2 := subList_reverse h1
  rw [hrev] at h2
  have h3 := subList_dropWhile c2 cs2 hc2 _ h2
  have h4 := subList_reverse h3
  rw [← hrev, List.reverse_reverse] at h4
  exact h4

/-! ### Helper lemmas about the item extractor's sanity bound -/

theorem finishItem_bounds {nm : String} {q p t : Q} {it : Item}
    (h : finishItem nm q p t = some it) :
    0 < it.price ∧ it.price < 1000 ∧ it.total < 1000 := by
  unfold finishItem at h
  split at h
  · exact Option.noConfusion h
  · next hcond =>
      push_neg at hcond
      obtain ⟨h1, h2, h3⟩ := hcond
      injection h with h'
      subst h'
      exact ⟨Q.lt_of_not_le h1, Q.lt_of_not_le h2, Q.lt_of_not_le h3⟩

theorem attemptItemGroups_bounds {n : Nat} {nm : String} {caps : Caps} {it : Item}
    (h : attemptItemGroups n nm caps = some it) :
    0 < it.price ∧ it.price < 1000 ∧ it.total < 1000 := by
  unfold attemptItemGroups at h
  repeat' split at h
  all_goals first
    | exact Option.noConfusion h
    | exact finishItem_bounds h

theorem attemptItemPattern_bounds {p : RE} {n : Nat} {line : String} {it : Item}
    (h : attemptItemPattern p n line = some it) :
    0 < it.price ∧ it.price < 1000 ∧ it.total < 1000 := by
  unfold attemptItemPattern at h
  split at h
  · exact Option.noConfusion h
  · exact attemptItemGroups_bounds h

theorem tryItemPatterns_bounds :
    ∀ (ps : List (RE × Nat)) (line : String) (it : Item),
      tryItemPatterns ps line = some it →
      0 < it.price ∧ it.price < 1000 ∧ it.total < 1000
  | [], _, _, h => Option.noConfusion h
  | (p, n) :: rest, line, it, h => by
      unfold tryItemPatterns at h
      split at h
      · next heq =>
          injection h with h'
          subst h'
          exact attemptItemPattern_bounds heq
      · exact tryItemPatterns_bounds rest line it h

theorem processStrippedLine_bounds {skipKws : List String} {pats : List (RE × Nat)}
    {line : String} {it : Item} (h : processStrippedLine skipKws pats line = some it) :
    0 < it.price ∧ it.price < 1000 ∧ it.total < 1000 := by
  unfold processStrippedLine at h
  repeat' split at h
  all_goals first
    | exact Option.noConfusion h
    | exact tryItemPatterns_bounds _ _ _ h

theorem processItemLine_bounds {skipKws : List String} {pats : List (RE × Nat)} {raw : String}
    {it : Item} (h : processItemLine skipKws pats raw = some it) :
    0 < it.price ∧ it.price < 1000 ∧ it.total < 1000 :=
  processStrippedLine_bounds h

theorem itemFold_bounds (skipKws : List String) (pats : List (RE × Nat)) :
    ∀ (lines : List String) (acc : List Item) (it : Item),
      it ∈ lines.foldl (fun acc l =>
        match processItemLine skipKws pats l with
        | some x => acc ++ [x]
        | none => acc) acc →
      it ∈ acc ∨ (0 < it.price ∧ it.price < 1000 ∧ it.total < 1000)
  | [], _, _, h => Or.inl h
  | l :: rest, acc, it, h => by
      rw [List.foldl_cons] at h
      rcases itemFold_bounds skipKws pats rest _ it h with hmem | hb
      · cases heq : processItemLine skipKws pats l with
        | none => rw [heq] at hmem; exact Or.inl hmem
        | some x =>
            rw [heq] at hmem
            simp only [List.mem_append, List.mem_singleton] at hmem
            rcases hmem with h1 | rfl
            · exact Or.inl h1
            · exact Or.inr (processItemLine_bounds heq)
      · exact Or.inr hb

/-! ### Helper lemmas about single-line date extraction -/

theorem extractDate_single_some {l : String} {d : PDate} (t : PDate)
    (h : tryDatePatternsOn l datePatterns = some d) : extractDate [l] t = d := by
  unfold extractDate dateScan lineDate
  rw [h]
  split
  · rfl
  · rfl

theorem extractDate_single_none {l : String} (t : PDate)
    (h : tryDatePatternsOn l datePatterns = none) : extractDate [l] t = t := by
  unfold extractDate dateScan lineDate
  rw [h]
  split
  · rfl
  · rfl

/-- Trimming preserves an occurrence of `"pin"` (its end characters are not
whitespace). -/
theorem subStr_pyStrip_pin (s : String) (h : subStr "pin" s = true) :
    subStr "pin" (pyStrip s) = true :=
  subList_trimChars 'p' ['i', 'n'] 'n' ['i', 'p'] s.data rfl (by decide) (by decide) h

/-- Trimming preserves an occurrence of `"password"`. -/
theorem subStr_pyStrip_password (s : String) (h : subStr "password" s = true) :
    subStr "password" (pyStrip s) = true :=
  subList_trimChars 'p' ['a', 's', 's', 'w', 'o', 'r', 'd'] 'd' ['r', 'o', 'w', 's', 's', 'a', 'p']
    s.data rfl (by decide) (by decide) h

/-! ### Concrete wide-schema CSV rows used by the grouping claim -/

def csvRowMilk : CsvRow :=
  { itemName := "Milk", dateStr := "2025-01-05", shopAddress := "Acme",
    totalAmountPaid := "3.50", quantityStr := "1", costPerUnit := "3.50",
    itemType := "Dairy", itemSubType := "NA" }

def csvRowBread : CsvRow :=
  { itemName := "Bread", dateStr := "2025-01-05", shopAddress := "Acme",
    totalAmountPaid := "2.00" }

def csvRowBadDate : CsvRow :=
  { itemName := "Eggs", dateStr := "29/02/2025", shopAddress := "Acme",
    totalAmountPaid := "4.00" }

def csvRowTax : CsvRow :=
  { itemName := "Tax", dateStr := "2025-01-05", shopAddress := "Acme",
    totalAmountPaid := "0.50" }

def csvRowEmptyName : CsvRow :=
  { itemName := "  ", dateStr := "2025-01-05", shopAddress := "Acme",
    totalAmountPaid := "1.00" }

/-- The single bill the two Acme rows group into. -/
def acmeBill : CsvBill :=
  ⟨"Acme", ⟨2025, 1, 5⟩,
   [⟨"Milk", 1, mkQ 7 2, mkQ 7 2, "Dairy"⟩, ⟨"Bread", 1, 2, 2, "Uncategorized"⟩],
   mkQ 11 2⟩

/-! ### The claims -/

/-- C1 (counterexample): the line `"Apple  2 x 1.50"` does not produce an
item with quantity 2.0 and line total 3.00 — the first pattern
(`name + price`) wins, capturing `"Apple  2 x"` as the name with quantity
1.0, unit price 1.50, line total 1.50. -/
theorem c1_counterexample :
    (extractItemsWith skipKeywordsPrimary itemPatternsPrimary ["Apple  2 x 1.50"]).map
        (fun it => (it.name, it.quantity, it.price, it.total)) =
      [("Apple  2 x", 1, mkQ 3 2, mkQ 3 2)] ∧
    (extractItemsWith skipKeywordsPrimary itemPatternsPrimary ["Apple  2 x 1.50"]).map
        (fun it => (it.quantity, it.price, it.total)) ≠ [(2, mkQ 3 2, 3)] :=
  ⟨by decide, by decide⟩

/-- C1 (amended): `"Milk 2L  3.99"` yields exactly one item (name "Milk 2L",
quantity 1.0, unit price 3.99); `"Apple  2 x 1.50"` yields exactly one item
with name `"Apple  2 x"`, quantity 1.0, unit price 1.50 and line total 1.50
(the first `name + price` pattern matches, its lazy name group absorbing
"2 x"); and `"TOTAL  45.67"` is rejected as noise. -/
theorem c1_amended :
    extractItemsWith skipKeywordsPrimary itemPatternsPrimary ["Milk 2L  3.99"] =
      [⟨"Milk 2L", 1, mkQ 399 100, mkQ 399 100, "Dairy", "NA"⟩] ∧
    extractItemsWith skipKeywordsPrimary itemPatternsPrimary ["Apple  2 x 1.50"] =
      [⟨"Apple  2 x", 1, mkQ 3 2, mkQ 3 2, "Fruit", "NA"⟩] ∧
    extractItemsWith skipKeywordsPrimary itemPatternsPrimary ["TOTAL  45.67"] = [] :=
  ⟨by decide, by decide, by decide⟩

/-- C2: the categorizer maps "Greek Yogurt" to "Dairy", "Whole Wheat Bread"
to "Grain" (via the multi-word keyword "whole wheat"), and both the purely
numeric "1234" and the empty string to "Uncategorized". -/
theorem c2_categorizer_examples :
    categorizeItem "Greek Yogurt" = "Dairy" ∧
    categorizeItem "Whole Wheat Bread" = "Grain" ∧
    categorizeItem "1234" = "Uncategorized" ∧
    categorizeItem "" = "Uncategorized" :=
  ⟨by decide, by decide, by decide, by decide⟩

/-- C3 (counterexample): a line containing `"2025-09-02"` does not yield
year 2025, month 09, day 02 — the first (two-digit-capable) pattern matches
the substring `"25-09-02"` before the 4-digit pattern is tried, giving
September 25, 2002. -/
theorem c3_counterexample :
    extractDate ["2025-09-02"] ⟨2026, 10, 12⟩ = ⟨2002, 9, 25⟩ ∧
    (⟨2002, 9, 25⟩ : PDate) ≠ ⟨2025, 9, 2⟩ :=
  ⟨by decide, by decide⟩

/-- C3 (amended): `"02/09/2025"` yields month 02, day 09, year 2025
(month-first default); `"2025-09-02"` yields year 2002, month 09, day 25
(pattern 1 matches the substring "25-09-02" first: 25 > 12 forces day-first
and the two-digit "02" is expanded to 2002); `"29/03/25"` yields day 29,
month 03, year 2025. -/
theorem c3_amended : ∀ today : PDate,
    extractDate ["02/09/2025"] today = ⟨2025, 2, 9⟩ ∧
    extractDate ["2025-09-02"] today = ⟨2002, 9, 25⟩ ∧
    extractDate ["29/03/25"] today = ⟨2025, 3, 29⟩ :=
  fun t => ⟨extractDate_single_some t (by decide), extractDate_single_some t (by decide),
    extractDate_single_some t (by decide)⟩

/-- C4: whenever the extracted (declared) total is 0 and the extracted item
list is non-empty, the parsed bill's total equals the sum of the items' line
totals. -/
theorem c4_total_reconciliation : ∀ (text : String) (today : PDate),
    extractTotal (pySplit '\n' text) = 0 →
    extractItemsWith skipKeywordsPrimary itemPatternsPrimary (pySplit '\n' text) ≠ [] →
    (parseBillTextToCsvFormat text today).total =
      sumTotals (parseBillTextToCsvFormat text today).items := by
  intro text today h1 h2
  show reconcileTotal _ _ = _
  unfold reconcileTotal
  rw [if_pos ⟨h2, h1⟩]
  rfl

/-- C4 (witness): three items summing to 14.98 with no extractable total give
bill total 14.98. -/
theorem c4_total_reconciliation_witness :
    (parseBillTextToCsvFormat "Milk 2L  3.99\nBread  5.00\nApple  5.99" ⟨2026, 10, 12⟩).total =
      sumTotals
        (parseBillTextToCsvFormat "Milk 2L  3.99\nBread  5.00\nApple  5.99" ⟨2026, 10, 12⟩).items ∧
    (parseBillTextToCsvFormat "Milk 2L  3.99\nBread  5.00\nApple  5.99" ⟨2026, 10, 12⟩).total =
      mkQ 1498 100 :=
  ⟨c4_total_reconciliation "Milk 2L  3.99\nBread  5.00\nApple  5.99" ⟨2026, 10, 12⟩
      (by decide) (by decide),
   by decide⟩

/-- C5 (counterexample): the sanity bound does not reject a zero line total —
the line `"Apple 0 x 150"` reaches pattern 4 (after patterns 1 and 3 are
rejected for a dot-less bare value) and produces an item with quantity 0,
unit price 150 and line total 0, which is outside (0, 1000). -/
theorem c5_counterexample :
    extractItemsWith skipKeywordsPrimary itemPatternsPrimary ["Apple 0 x 150"] =
      [⟨"Apple", 0, 150, 0, "Fruit", "NA"⟩] :=
  by decide

/-- C5 (amended): the extractor rejects a candidate when its unit price is
≤ 0 or ≥ 1000 or its line total is ≥ 1000 (a zero line total is *not*
rejected); consequently every output item has 0 < unit price < 1000 and line
total < 1000, and a line whose parsed unit price is 5000 yields no item. -/
theorem c5_amended :
    (∀ (lines : List String) (it : Item),
        it ∈ extractItemsWith skipKeywordsPrimary itemPatternsPrimary lines →
        0 < it.price ∧ it.price < 1000 ∧ it.total < 1000) ∧
    extractItemsWith skipKeywordsPrimary itemPatternsPrimary ["Apple 5000.00"] = [] := by
  constructor
  · intro lines it h
    unfold extractItemsWith at h
    rcases itemFold_bounds skipKeywordsPrimary itemPatternsPrimary lines [] it h with h0 | hb
    · exact absurd h0 (List.not_mem_nil it)
    · exact hb
  · decide

/-- C5 (witness): the item extracted from `"Milk 2L  3.99"` satisfies the
bounds. -/
theorem c5_amended_witness :
    0 < (⟨"Milk 2L", 1, mkQ 399 100, mkQ 399 100, "Dairy", "NA"⟩ : Item).price ∧
    (⟨"Milk 2L", 1, mkQ 399 100, mkQ 399 100, "Dairy", "NA"⟩ : Item).price < 1000 ∧
    (⟨"Milk 2L", 1, mkQ 399 100, mkQ 399 100, "Dairy", "NA"⟩ : Item).total < 1000 :=
  c5_amended.1 ["Milk 2L  3.99"] ⟨"Milk 2L", 1, mkQ 399 100, mkQ 399 100, "Dairy", "NA"⟩
    (by decide)

/-- C6: two wide-schema rows sharing (date "2025-01-05", shop "Acme") with
different item names produce exactly one bill with two items; a row whose
date fails all four formats, a "tax"-named row and an empty-named row are
each skipped without producing an error, also when mixed with the grouped
rows. -/
theorem c6_csv_wide_grouping :
    uploadCsvWide noDup [csvRowMilk, csvRowBread] = ([acmeBill], []) ∧
    uploadCsvWide noDup [csvRowMilk, csvRowBadDate, csvRowTax, csvRowEmptyName, csvRowBread] =
      ([acmeBill], []) ∧
    uploadCsvWide noDup [csvRowBadDate] = ([], []) ∧
    uploadCsvWide noDup [csvRowTax] = ([], []) ∧
    uploadCsvWide noDup [csvRowEmptyName] = ([], []) :=
  ⟨by decide, by decide, by decide, by decide, by decide⟩

/-- C7: when the OCR pipeline throws (`none`) or the recognized text trims to
under 10 characters, `extract_from_image` returns the fixed demonstration
bill, whose sentinel shop name is "Sample Store". -/
theorem c7_fallback : ∀ (ocrText : Option String) (today : PDate),
    (ocrText = none ∨ ∃ t, ocrText = some t ∧ (pyStrip t).length < 10) →
    extractFromImage ocrText today = mockExtract today ∧
    (extractFromImage ocrText today).shop = "Sample Store" := by
  intro o d h
  have he : extractFromImage o d = mockExtract d := by
    rcases h with rfl | ⟨s, rfl, hlen⟩
    · rfl
    · show (if (pyStrip s).length < 10 then mockExtract d else _) = mockExtract d
      rw [if_pos hlen]
  exact ⟨he, by rw [he]; rfl⟩

/-- C7 (witness): the three-character text "abc" triggers the fallback. -/
theorem c7_fallback_witness :
    extractFromImage (some "abc") ⟨2025, 1, 1⟩ = mockExtract ⟨2025, 1, 1⟩ ∧
    (extractFromImage (some "abc") ⟨2025, 1, 1⟩).shop = "Sample Store" :=
  c7_fallback (some "abc") ⟨2025, 1, 1⟩ (Or.inr ⟨"abc", rfl, by decide⟩)

/-- C8: the textual "Month DD, YYYY" date pattern matches
`"January 5, 2024"`, but the extractor still falls back to the current
processing date — the handler only converts a match when the line contains a
slash or dash, so the textual family never produces a date. -/
theorem c8_textual_date_dead : ∀ today : PDate,
    (reSearchCaps datePat3 "January 5, 2024").isSome = true ∧
    extractDate ["January 5, 2024"] today = today :=
  fun t => ⟨by decide, extractDate_single_none t (by decide)⟩

/-- C9: the bill parser is deterministic — its output is a function of the
raw text and the processing date alone, so two runs under the same
processing date agree. -/
theorem c9_deterministic : ∀ (text : String) (t1 t2 : PDate),
    t1 = t2 → parseBillTextToCsvFormat text t1 = parseBillTextToCsvFormat text t2 := by
  intro text t1 t2 h
  rw [h]

/-- C9 (witness): two runs on the same text and date coincide. -/
theorem c9_deterministic_witness :
    parseBillTextToCsvFormat "Milk 2L  3.99" ⟨2025, 1, 1⟩ =
      parseBillTextToCsvFormat "Milk 2L  3.99" ⟨2025, 1, 1⟩ :=
  c9_deterministic "Milk 2L  3.99" ⟨2025, 1, 1⟩ ⟨2025, 1, 1⟩ rfl

/-- C10: any item name containing "pin" or "password" case-insensitively as
a substring is categorized "Uncategorized"; in particular "Pineapple" is
"Uncategorized" although "pineapple" is listed among the Fruit keywords. -/
theorem c10_pin_substring :
    (∀ name : String,
        subStr "pin" (pyLower name) = true ∨ subStr "password" (pyLower name) = true →
        categorizeItem name = "Uncategorized") ∧
    categorizeItem "Pineapple" = "Uncategorized" ∧
    "pineapple" ∈ fruitKeywords := by
  refine ⟨?_, by decide, by decide⟩
  intro name h
  unfold categorizeItem
  split
  · rfl
  · rw [if_pos ?hc]
    case hc =>
      unfold catGuard
      rcases h with hp | hp
      · have hs := subStr_pyStrip_pin (pyLower name) hp
        simp [hs]
      · have hs := subStr_pyStrip_password (pyLower name) hp
        simp [hs]

/-- C10 (witness): "Pineapple" contains "pin" and is left uncategorized. -/
theorem c10_pin_substring_witness : categorizeItem "Pineapple" = "Uncategorized" :=
  c10_pin_substring.1 "Pineapple" (Or.inl (by decide))

end BillsAgg
